import Mathlib

/-!
Verification of the security-scanning subsystem of the fileSystemAgent
repository (src/security/): data model (models.py), pipeline orchestration
(pipeline.py), the scanner execution template (scanner_base.py), tool
resolution (tool_manager.py) and the HollowsHunter output parsing chain
(result_parser.py, scanners/hollows_hunter.py).

Shallow embedding conventions:
* Effectful primitives (filesystem probes, subprocess execution, hashing,
  JSON decoding) are represented by oracle structures (`FS`, `ExecEnv`,
  decoded report structures) supplied as explicit arguments; the Python
  control flow over their outcomes is translated directly.
* Python exceptions that are caught locally appear as `Except` values
  consumed inside a definition; an exception that escapes a function makes
  the function return `Except.error`.
* Generated ids (uuid) and wall-clock timestamps are omitted from the
  records; no modelled claim depends on them.
* Quote characters inside Python message strings are elided.
-/

/-- models.py: ScanStatus enum. -/
inductive ScanStatus where
  | pending
  | running
  | completed
  | failed
  | timed_out
  | skipped
deriving DecidableEq

/-- models.py: SeverityLevel enum (info < low < medium < high < critical). -/
inductive SeverityLevel where
  | info
  | low
  | medium
  | high
  | critical
deriving DecidableEq

/-- Position of a severity in the five-level scale, for comparisons. -/
def severityRank : SeverityLevel → Nat
  | .info => 0
  | .low => 1
  | .medium => 2
  | .high => 3
  | .critical => 4

/-- models.py: ToolInfo (fields consumed by the resolution/verification code;
static acquisition metadata that the modelled functions never read is
omitted). `path` is a filesystem path kept as a plain string. -/
structure ToolInfo where
  name : String
  display_name : String
  exe_name : String
  path : Option String := none
  expected_hash : Option String := none
  installed : Bool := false
deriving DecidableEq

/-- models.py: ScanTarget. -/
structure ScanTarget where
  target_type : String := "path"
  target_value : String := ""
  recursive : Bool := true
deriving DecidableEq

/-- models.py: ScanConfig. The open `extra_args` bag is only consulted inside
the tool-specific `build_command` implementations, which are modelled as
oracle outcomes, so it is not carried here. -/
structure ScanConfig where
  tool_name : String
  target : ScanTarget := {}
  timeout : Nat := 600
  output_dir : String := "./data/security/scans"
  dry_run : Bool := false
deriving DecidableEq

/-- models.py: Finding (normalized detection; uuid and timestamp omitted,
`raw_data` bag omitted). -/
structure Finding where
  tool_name : String
  severity : SeverityLevel
  category : String
  title : String
  description : String
  target : String
  mitre_attack : Option String := none
deriving DecidableEq

/-- models.py: ScanResult (uuid and wall-clock fields omitted). -/
structure ScanResult where
  tool_name : String
  status : ScanStatus := .pending
  config : ScanConfig
  return_code : Option Int := none
  stdout : String := ""
  stderr : String := ""
  output_files : List String := []
  findings : List Finding := []
  error_message : Option String := none
deriving DecidableEq

/-- models.py: ScanResult.findings_count. -/
def ScanResult.findings_count (r : ScanResult) : Nat :=
  r.findings.length

/-- models.py: PipelineConfig. -/
structure PipelineConfig where
  name : String := "security_scan"
  description : String := ""
  steps : List ScanConfig := []
  stop_on_failure : Bool := false

/-- models.py: PipelineResult (uuid and wall-clock fields omitted). -/
structure PipelineResult where
  pipeline_name : String
  status : ScanStatus := .pending
  scan_results : List ScanResult := []
deriving DecidableEq

/-- models.py: PipelineResult.total_findings. -/
def PipelineResult.total_findings (p : PipelineResult) : Nat :=
  (p.scan_results.map ScanResult.findings_count).sum

/-- A scanner's `run` viewed from the pipeline: it yields a ScanResult, or an
uncaught exception (`Except.error`). -/
abbrev Runner := ScanConfig → Except String ScanResult

/-- The pipeline's `_scanners` registry (`self._scanners.get(tool_name)`). -/
abbrev ScannerMap := String → Option Runner

/-- pipeline.py lines 94-100: the SKIPPED result recorded when no scanner is
registered for a step's tool name. -/
def skippedResult (step : ScanConfig) : ScanResult :=
  { tool_name := step.tool_name
    config := step
    status := .skipped
    error_message := some ("No scanner registered for " ++ step.tool_name) }

/-- pipeline.py lines 88-128: the `for` loop of run_pipeline. Returns the
accumulated scan results together with a flag telling whether the
stop_on_failure early return fired; an uncaught exception from a scanner
propagates. -/
def runSteps (scanners : ScannerMap) (stopOnFailure : Bool) :
    List ScanConfig → Except String (List ScanResult × Bool)
  | [] => .ok ([], false)
  | step :: rest =>
    match scanners step.tool_name with
    | none =>
      match runSteps scanners stopOnFailure rest with
      | .error e => .error e
      | .ok (rs, stopped) => .ok (skippedResult step :: rs, stopped)
    | some runner =>
      match runner step with
      | .error e => .error e
      | .ok r =>
        if stopOnFailure ∧ r.status = ScanStatus.failed then
          .ok ([r], true)
        else
          match runSteps scanners stopOnFailure rest with
          | .error e => .error e
          | .ok (rs, stopped) => .ok (r :: rs, stopped)

/-- pipeline.py lines 71-140: ScanPipeline.run_pipeline. The early return at
lines 117-128 sets status FAILED; falling off the loop sets COMPLETED. -/
def run_pipeline (scanners : ScannerMap) (cfg : PipelineConfig) :
    Except String PipelineResult :=
  match runSteps scanners cfg.stop_on_failure cfg.steps with
  | .error e => .error e
  | .ok (rs, stopped) =>
    .ok { pipeline_name := cfg.name
          status := if stopped then .failed else .completed
          scan_results := rs }

/-- Outcome of the subprocess phase of scanner_base.py lines 127-175:
the awaited child finished with a return code and captured output, the
timeout fired, or spawn/IO raised (caught at line 166). -/
inductive ExecOutcome where
  | timeout
  | spawnError (msg : String)
  | finished (returnCode : Int) (stdoutText : String) (stderrText : String)

/-- Oracle for one ScannerBase.run invocation: the outcomes of the effectful
primitives the template method consumes, in source order. `createOutputDir`
is the result of `_create_output_dir` (lines 207-212) - `.ok` carries the
created directory path, `.error` an OSError raised by `mkdir`.
`buildCommand` is the outcome of the subclass `build_command` call,
`parseOutput` the outcome of the subclass `parse_output` call, and
`isSuccessReturnCode` the subclass `_is_success_return_code` predicate
(default: always false, lines 214-220). -/
structure ExecEnv where
  installed : Bool
  createOutputDir : Except String String
  buildCommand : Except String (List String)
  execute : ExecOutcome
  outputFiles : List String
  parseOutput : Except String (List Finding)
  isSuccessReturnCode : Option Int → Bool := fun _ => false

/-- Result of one ScannerBase.run invocation plus the frame effects the
claims talk about: whether the run created its output directory and whether
it spawned a child process. `result` is `.error` when an exception escaped
`run` itself. -/
structure RunOutcome where
  result : Except String ScanResult
  dirCreated : Bool
  spawned : Bool

/-- scanner_base.py lines 94-98: the not-installed message. -/
def notInstalledMsg (toolName : String) : String :=
  toolName ++ " is not installed. Run python main.py security setup or install manually."

/-- scanner_base.py lines 76-205: ScannerBase.run, the template method.
Direct translation of the control flow: availability gate, output directory
creation (NOT inside a try block - an exception here escapes `run`), command
construction (try/except to FAILED), dry-run early return, subprocess
execution with timeout/spawn-error handling, output parsing (exception
degrades to zero findings), final classification by return code. -/
def ScannerBase.run (toolName : String) (env : ExecEnv) (cfg : ScanConfig) :
    RunOutcome :=
  let result0 : ScanResult := { tool_name := toolName, config := cfg }
  match env.installed with
  | false =>
    { result := .ok { result0 with
        status := .skipped
        error_message := some (notInstalledMsg toolName) }
      dirCreated := false, spawned := false }
  | true =>
    match env.createOutputDir with
    | .error e => { result := .error e, dirCreated := false, spawned := false }
    | .ok _outputDir =>
      match env.buildCommand with
      | .error e =>
        { result := .ok { result0 with
            status := .failed
            error_message := some ("Failed to build command: " ++ e) }
          dirCreated := true, spawned := false }
      | .ok cmd =>
        if cfg.dry_run then
          { result := .ok { result0 with
              status := .completed
              stdout := "[DRY RUN] Would execute: " ++ String.intercalate " " cmd }
            dirCreated := true, spawned := false }
        else
          match env.execute with
          | .timeout =>
            { result := .ok { result0 with
                status := .timed_out
                error_message := some
                  (toolName ++ " timed out after " ++ toString cfg.timeout ++ "s") }
              dirCreated := true, spawned := true }
          | .spawnError e =>
            { result := .ok { result0 with
                status := .failed
                error_message := some ("Subprocess error: " ++ e) }
              dirCreated := true, spawned := true }
          | .finished rc out err =>
            let findings :=
              match env.parseOutput with
              | .ok fs => fs
              | .error _ => []
            let base : ScanResult := { result0 with
              return_code := some rc
              stdout := out
              stderr := err
              output_files := env.outputFiles
              findings := findings }
            if rc = 0 ∨ env.isSuccessReturnCode (some rc) = true then
              { result := .ok { base with status := .completed }
                dirCreated := true, spawned := true }
            else
              { result := .ok { base with
                  status := .failed
                  error_message := some
                    (toolName ++ " exited with code " ++ toString rc) }
                dirCreated := true, spawned := true }

/-- Filesystem / system oracle for tool_manager.py. `isFile p` models
`Path(p).is_file()`, `isDir` models `is_dir()`, `rglob d x` the path list
produced by `Path(d).rglob(x)` in traversal order, `which` models
`shutil.which`, and `sha256 p` the hex digest `_sha256(p)` computes
(hashlib's `hexdigest()`, which is lowercase hex). `Path.resolve()` is
modelled as the identity on the already-absolute path strings used here. -/
structure FS where
  isFile : String → Bool
  isDir : String → Bool
  rglob : String → String → List String
  which : String → Option String
  sha256 : String → String

/-- The two error kinds tool_manager.py raises: `KeyError` for an
unregistered tool name and `FileNotFoundError` from get_tool_path. -/
inductive ToolError where
  | unknownTool (msg : String)
  | toolNotFound (msg : String)
deriving DecidableEq

/-- State of a ToolManager instance: `tools_dir` (resolved at construction)
and the mutable `_tools` registry. -/
structure TMState where
  tools_dir : String
  tools : String → Option ToolInfo

/-- In-place mutation of one registry entry (`self._tools[name]` holds the
object check_tool mutates). -/
def setTool (s : TMState) (name : String) (t : ToolInfo) : TMState :=
  { s with tools := fun n => if n = name then some t else s.tools n }

/-- tool_manager.py lines 147-190: the search performed by check_tool, in
source order. Step 1 consults the ToolInfo's current `path` field (a config
override, or whatever a previous check_tool call stored there); step 2 the
`toolsDir/<name>/` directory, first the direct candidate then the recursive
`rglob` candidates filtered by `is_file()`; then the flat
`toolsDir/<exe_name>` candidate; step 3 the system PATH. -/
def findToolPath (fs : FS) (tools_dir : String) (tool_name : String)
    (tool : ToolInfo) : Option String :=
  let step1 : Option String :=
    match tool.path with
    | some p => if fs.isFile p then some p else none
    | none => none
  match step1 with
  | some p => some p
  | none =>
    let tool_dir := tools_dir ++ "/" ++ tool_name
    let step2 : Option String :=
      if fs.isDir tool_dir then
        let candidate := tool_dir ++ "/" ++ tool.exe_name
        if fs.isFile candidate then some candidate
        else (fs.rglob tool_dir tool.exe_name).find? (fun c => fs.isFile c)
      else none
    match step2 with
    | some p => some p
    | none =>
      let candidate_flat := tools_dir ++ "/" ++ tool.exe_name
      if fs.isFile candidate_flat then some candidate_flat
      else fs.which tool.exe_name

/-- tool_manager.py lines 137-190: ToolManager.check_tool. Raises KeyError
for an unregistered name; otherwise resolves via `findToolPath` and mutates
the stored ToolInfo: on a hit it stores the resolved path and
`installed := true` (on a step-1 hit the stored path is rewritten to the
same value it already had), on a miss it stores `path := none`,
`installed := false`. Returns the updated ToolInfo. -/
def check_tool (fs : FS) (s : TMState) (tool_name : String) :
    Except ToolError (ToolInfo × TMState) :=
  match s.tools tool_name with
  | none => .error (.unknownTool ("Unknown tool: " ++ tool_name))
  | some tool =>
    match findToolPath fs s.tools_dir tool_name tool with
    | some p =>
      let t := { tool with path := some p, installed := true }
      .ok (t, setTool s tool_name t)
    | none =>
      let t := { tool with path := none, installed := false }
      .ok (t, setTool s tool_name t)

/-- tool_manager.py lines 200-204: the FileNotFoundError message of
get_tool_path, carrying the two remediation hints. -/
def notFoundMsg (t : ToolInfo) (tool_name : String) : String :=
  t.display_name ++ " (" ++ t.exe_name ++ ") " ++
    ("not found. Run python main.py security setup to install, or set security.tools."
      ++ tool_name ++ ".path in config.yaml.")

/-- tool_manager.py lines 196-205: ToolManager.get_tool_path. -/
def get_tool_path (fs : FS) (s : TMState) (tool_name : String) :
    Except ToolError (String × TMState) :=
  match check_tool fs s tool_name with
  | .error e => .error e
  | .ok (t, s') =>
    match t.installed, t.path with
    | true, some p => .ok (p, s')
    | true, none => .error (.toolNotFound (notFoundMsg t tool_name))
    | false, _ => .error (.toolNotFound (notFoundMsg t tool_name))

/-- Python `str.lower()` as used on hash strings: per-character lowering
(identical to `String.toLower`, but structurally recursive so concrete
instances evaluate by kernel reduction). -/
def strLower (s : String) : String :=
  ⟨s.data.map Char.toLower⟩

/-- tool_manager.py lines 213-229: ToolManager.verify_tool_integrity.
Python `.lower()` on the configured hash string is modelled by
`strLower`. -/
def verify_tool_integrity (fs : FS) (s : TMState) (tool_name : String) :
    Except ToolError (Bool × TMState) :=
  match check_tool fs s tool_name with
  | .error e => .error e
  | .ok (t, s') =>
    match t.installed, t.path with
    | true, some p =>
      match t.expected_hash with
      | none => .ok (true, s')
      | some h => .ok (decide (fs.sha256 p = strLower h), s')
    | _, _ => .ok (false, s')

/-- Modelled from the spec (section 4.1 and section 8): the resolution
priority exactly as the spec words it - (1) an existing explicit config
path; (2) a file named `exe_name` directly inside, or recursively nested
under, `toolsDir/<name>/`; (3) a flat `toolsDir/<exe_name>`; (4) the system
PATH. Used as the specification side of the resolution-priority claim. -/
def priorityResolve (fs : FS) (configPath : Option String)
    (tools_dir tool_name exe_name : String) : Option String :=
  let fromConfig : Option String :=
    match configPath with
    | some p => if fs.isFile p then some p else none
    | none => none
  match fromConfig with
  | some p => some p
  | none =>
    let d := tools_dir ++ "/" ++ tool_name
    let direct := d ++ "/" ++ exe_name
    let fromToolsDir : Option String :=
      if fs.isFile direct then some direct
      else (fs.rglob d exe_name).find? (fun c => fs.isFile c)
    match fromToolsDir with
    | some p => some p
    | none =>
      let flat := tools_dir ++ "/" ++ exe_name
      if fs.isFile flat then some flat
      else fs.which exe_name

/-- scanners/hollows_hunter.py lines 96-125: the per-process raw dict built
by the parsing chain, with the seven anomaly counters. A key missing from
the dict is represented by a 0 counter (`raw.get(key, 0)`). -/
structure RawProc where
  pid : String
  name : String
  replaced : Nat := 0
  implanted : Nat := 0
  hdr_modified : Nat := 0
  patched : Nat := 0
  iat_hooked : Nat := 0
  unreachable_file : Nat := 0
  other : Nat := 0
deriving DecidableEq

/-- `raw.get(anomaly_type, 0)` over the seven counter keys. -/
def RawProc.counter (raw : RawProc) : String → Nat
  | "replaced" => raw.replaced
  | "implanted" => raw.implanted
  | "hdr_modified" => raw.hdr_modified
  | "patched" => raw.patched
  | "iat_hooked" => raw.iat_hooked
  | "unreachable_file" => raw.unreachable_file
  | "other" => raw.other
  | _ => 0

/-- scanners/hollows_hunter.py lines 19-55: the ANOMALY_SEVERITY table, in
source (insertion) order: anomaly type, severity, MITRE ATT&CK id,
description. -/
def ANOMALY_SEVERITY : List (String × SeverityLevel × Option String × String) :=
  [ ("replaced", .critical, some "T1055.012",
      "Process hollowing - entire module replaced in memory"),
    ("implanted", .critical, some "T1055",
      "Code injection - foreign code implanted into process"),
    ("hdr_modified", .high, some "T1055",
      "PE header modification - headers tampered in memory"),
    ("patched", .medium, some "T1574",
      "Inline patching - code bytes modified (possible hook)"),
    ("iat_hooked", .high, some "T1574",
      "IAT hooking - import address table entries redirected"),
    ("unreachable_file", .medium, none,
      "Unreachable file - module on disk cannot be accessed"),
    ("other", .low, none,
      "Other anomaly detected") ]

/-- scanners/hollows_hunter.py lines 108-123: the Finding built for one
non-zero anomaly counter. -/
def anomalyFinding (raw : RawProc) (anomaly_type : String)
    (sev : SeverityLevel) (mitre : Option String) (desc : String) : Finding :=
  { tool_name := "hollows_hunter"
    severity := sev
    category := "memory_anomaly"
    title := "HollowsHunter: " ++ anomaly_type ++ " in " ++ raw.name
      ++ " (PID " ++ raw.pid ++ ")"
    description := desc ++ ". Found " ++ toString (raw.counter anomaly_type)
      ++ " " ++ anomaly_type ++ " anomal"
      ++ (if raw.counter anomaly_type > 1 then "ies" else "y")
      ++ " in process " ++ raw.name ++ " (PID " ++ raw.pid ++ ")."
    target := "PID:" ++ raw.pid
    mitre_attack := mitre }

/-- scanners/hollows_hunter.py lines 96-125:
HollowsHunterScanner._raw_to_findings - one Finding per anomaly type whose
counter is non-zero, iterating ANOMALY_SEVERITY in order. -/
def raw_to_findings (raw : RawProc) : List Finding :=
  (ANOMALY_SEVERITY.filter (fun e => decide (raw.counter e.1 > 0))).map
    (fun e => anomalyFinding raw e.1 e.2.1 e.2.2.1 e.2.2.2)

/-- Decoded per-process entry of the top-level scan_report.json `scanned`
map (result_parser.py lines 95-116): `process_info.get(key, 0)` defaults
are the field defaults. -/
structure ProcInfo where
  name : String := "unknown"
  replaced : Nat := 0
  implanted : Nat := 0
  hdr_modified : Nat := 0
  patched : Nat := 0
  iat_hooked : Nat := 0
  unreachable_file : Nat := 0
  other : Nat := 0
deriving DecidableEq

/-- Decoded `<pid>/scan_report.json` per-process report (result_parser.py
lines 126-143). The report carries the same counters as the top-level
entries; which of them the parser reads is a property of the parser, not of
this record. -/
structure PerProcReport where
  main_image_path : String := "unknown"
  replaced : Nat := 0
  implanted : Nat := 0
  hdr_modified : Nat := 0
  patched : Nat := 0
  iat_hooked : Nat := 0
  unreachable_file : Nat := 0
  other : Nat := 0
deriving DecidableEq

/-- Decoded contents of a HollowsHunter output directory, as
result_parser.py walks it: the top-level scan_report.json `scanned` map
(none when the file is absent or `json.loads` raised, which the code
swallows at lines 117-118), and the digit-named subdirectories that contain
a scan_report.json, each with its decoded report (none when `json.loads`
raised, swallowed at lines 144-145). -/
structure HHReportDir where
  topScanned : Option (List (String × ProcInfo))
  subReports : List (String × Option PerProcReport)

/-- result_parser.py lines 97-103: the seven-counter sum guarding inclusion
of a top-level `scanned` entry. -/
def topTotalSuspicious (p : ProcInfo) : Nat :=
  p.replaced + p.implanted + p.hdr_modified + p.patched
    + p.iat_hooked + p.unreachable_file + p.other

/-- result_parser.py lines 104-116: the raw dict appended for a top-level
`scanned` entry, carrying all seven counters. -/
def topEntryToRaw (pid : String) (p : ProcInfo) : Option RawProc :=
  if topTotalSuspicious p > 0 then
    some { pid := pid
           name := p.name
           replaced := p.replaced
           implanted := p.implanted
           hdr_modified := p.hdr_modified
           patched := p.patched
           iat_hooked := p.iat_hooked
           unreachable_file := p.unreachable_file
           other := p.other }
  else none

/-- result_parser.py lines 130-133: the four-counter sum guarding inclusion
of a per-process subdirectory report. -/
def subTotalSuspicious (d : PerProcReport) : Nat :=
  d.replaced + d.implanted + d.hdr_modified + d.patched

/-- result_parser.py lines 134-143: the raw dict appended for a per-process
subdirectory report. Only replaced/implanted/hdr_modified/patched are read
from the report; the remaining counter keys are absent from the dict, so
they default to 0 downstream. -/
def subEntryToRaw (pidDir : String) (d : PerProcReport) : Option RawProc :=
  if subTotalSuspicious d > 0 then
    some { pid := pidDir
           name := d.main_image_path
           replaced := d.replaced
           implanted := d.implanted
           hdr_modified := d.hdr_modified
           patched := d.patched }
  else none

/-- result_parser.py lines 73-147: ResultParser.parse_hollows_hunter_report
- top-level `scanned` entries first, then the per-process subdirectory
reports, in directory order. -/
def parse_hollows_hunter_report (dir : HHReportDir) : List RawProc :=
  (match dir.topScanned with
   | some scanned => scanned.filterMap (fun e => topEntryToRaw e.1 e.2)
   | none => [])
  ++ dir.subReports.filterMap (fun e =>
      match e.2 with
      | some d => subEntryToRaw e.1 d
      | none => none)

/-- scanners/hollows_hunter.py lines 81-94: parse_output once the top-level
scan_report.json was located - every raw per-process dict is expanded by
_raw_to_findings. -/
def hollows_hunter_findings (dir : HHReportDir) : List Finding :=
  (parse_hollows_hunter_report dir).flatMap raw_to_findings

/-! Concrete instances used by the closed theorems below. -/

/-- A failed first step for the pipeline scenario. -/
def c1StepA : ScanConfig := { tool_name := "ta" }

/-- A succeeding second step for the pipeline scenario. -/
def c1StepB : ScanConfig := { tool_name := "tb" }

/-- A sample finding attributed to a tool. -/
def sampleFinding (t : String) : Finding :=
  { tool_name := t, severity := .high, category := "test"
    title := "f", description := "d", target := "x" }

/-- Failed result of step A that nevertheless carries one finding (reachable:
scanner_base.py parses findings before classifying a non-zero exit code as
FAILED). -/
def c1ResA : ScanResult :=
  { tool_name := "ta", config := c1StepA, status := .failed
    return_code := some 2, findings := [sampleFinding "ta"] }

/-- Completed result of step B with exactly one finding. -/
def c1ResB : ScanResult :=
  { tool_name := "tb", config := c1StepB, status := .completed
    return_code := some 0, findings := [sampleFinding "tb"] }

/-- Scanner registry for the two-step pipeline scenario. -/
def c1Scanners : ScannerMap := fun n =>
  if n = "ta" then some (fun _ => .ok c1ResA)
  else if n = "tb" then some (fun _ => .ok c1ResB)
  else none

/-- Two-step pipeline, stop_on_failure = false. -/
def c1Cfg : PipelineConfig :=
  { name := "p", steps := [c1StepA, c1StepB], stop_on_failure := false }

/-- Failed step-A result with no findings (the spec scenario). -/
def c1wResA : ScanResult :=
  { tool_name := "ta", config := c1StepA, status := .failed, return_code := some 2 }

/-- Scanner registry for the witness pipeline. -/
def c1wScanners : ScannerMap := fun n =>
  if n = "ta" then some (fun _ => .ok c1wResA)
  else if n = "tb" then some (fun _ => .ok c1ResB)
  else none

/-- Two-step pipeline, stop_on_failure = true. -/
def c1wCfg : PipelineConfig :=
  { name := "w", steps := [c1StepA, c1StepB], stop_on_failure := true }

/-- Registered YARA-X entry with no config path (fresh registry). -/
def c2yara : ToolInfo :=
  { name := "yara_x", display_name := "YARA-X", exe_name := "yr.exe" }

/-- Fresh manager state with yara_x registered. -/
def c2s0 : TMState :=
  { tools_dir := "/tools",
    tools := fun n => if n = "yara_x" then some c2yara else none }

/-- Filesystem at the first call: the binary exists only on the PATH. -/
def c2fs1 : FS :=
  { isFile := fun p => p == "/usr/bin/yr.exe",
    isDir := fun _ => false,
    rglob := fun _ _ => [],
    which := fun e => if e == "yr.exe" then some "/usr/bin/yr.exe" else none,
    sha256 := fun _ => "" }

/-- Filesystem at the second call: a higher-priority copy now exists under
toolsDir/yara_x/, and the PATH copy still exists. -/
def c2fs2 : FS :=
  { isFile := fun p => p == "/usr/bin/yr.exe" || p == "/tools/yara_x/yr.exe",
    isDir := fun d => d == "/tools/yara_x",
    rglob := fun d x =>
      if d == "/tools/yara_x" && x == "yr.exe"
      then ["/tools/yara_x/yr.exe"] else [],
    which := fun e => if e == "yr.exe" then some "/usr/bin/yr.exe" else none,
    sha256 := fun _ => "" }

/-- The ToolInfo as mutated by the first check_tool call. -/
def c2t1 : ToolInfo :=
  { c2yara with path := some "/usr/bin/yr.exe", installed := true }

/-- Manager state after the first check_tool call. -/
def c2s1 : TMState := setTool c2s0 "yara_x" c2t1

/-- Filesystem where no tool resolves anywhere. -/
def c9fs : FS :=
  { isFile := fun _ => false, isDir := fun _ => false,
    rglob := fun _ _ => [], which := fun _ => none, sha256 := fun _ => "" }

/-- Registry holding one registered tool that resolves nowhere. -/
def c9s : TMState :=
  { tools_dir := "/t",
    tools := fun n =>
      if n = "hh"
      then some { name := "hh", display_name := "HH", exe_name := "hh.exe" }
      else none }

/-- Tool entry pinned with an UPPERCASE hex hash, resolvable via its
configured path. -/
def c10tool : ToolInfo :=
  { name := "x", display_name := "X", exe_name := "x.exe",
    path := some "/bin/x.exe", expected_hash := some "ABC1" }

/-- Filesystem for the integrity-pinning scenario: the binary exists and its
digest is the lowercase form of the pinned hash. -/
def c10fs : FS :=
  { isFile := fun p => p == "/bin/x.exe", isDir := fun _ => false,
    rglob := fun _ _ => [], which := fun _ => none,
    sha256 := fun _ => "abc1" }

/-- Registry holding the pinned tool. -/
def c10s : TMState :=
  { tools_dir := "/t",
    tools := fun n => if n = "x" then some c10tool else none }

/-! Theorems. -/

/-- C1 (counterexample): with steps `[A, B]`, A yielding a Failed ScanResult
(here one that carries a finding, which scanner_base.py can produce: findings
are parsed before a non-zero exit code classifies the result FAILED) and B a
Completed ScanResult with exactly one finding, and stop_on_failure = false,
run_pipeline completes with both results in order but total_findings is 2,
not 1 as the claim states. -/
theorem c1_counterexample :
    run_pipeline c1Scanners c1Cfg =
      .ok { pipeline_name := "p", status := .completed
            scan_results := [c1ResA, c1ResB] }
    ∧ c1ResA.status = .failed
    ∧ c1ResB.status = .completed
    ∧ c1ResB.findings.length = 1
    ∧ PipelineResult.total_findings
        { pipeline_name := "p", status := .completed
          scan_results := [c1ResA, c1ResB] } ≠ 1 := by
  refine ⟨rfl, rfl, rfl, rfl, ?_⟩
  decide

/-- C1 (amended): for every pipeline whose steps are `[A, B]` where running A
yields a Failed ScanResult carrying no findings and running B yields a
Completed ScanResult with exactly one finding: if stop_on_failure is false,
run_pipeline returns status Completed with both results in order and
total_findings 1; if stop_on_failure is true, it returns status Failed with
only step A's result. -/
theorem c1_pipeline_two_steps
    (scanners : ScannerMap) (cfg : PipelineConfig)
    (stepA stepB : ScanConfig) (runA runB : Runner) (resA resB : ScanResult)
    (hsteps : cfg.steps = [stepA, stepB])
    (hA : scanners stepA.tool_name = some runA)
    (hB : scanners stepB.tool_name = some runB)
    (hrA : runA stepA = .ok resA)
    (hfA : resA.status = .failed)
    (hnfA : resA.findings = [])
    (hrB : runB stepB = .ok resB)
    (hcB : resB.status = .completed)
    (hfB : resB.findings.length = 1) :
    (cfg.stop_on_failure = false →
      run_pipeline scanners cfg =
        .ok { pipeline_name := cfg.name, status := .completed
              scan_results := [resA, resB] }
      ∧ PipelineResult.total_findings
          { pipeline_name := cfg.name, status := .completed
            scan_results := [resA, resB] } = 1)
    ∧ (cfg.stop_on_failure = true →
      run_pipeline scanners cfg =
        .ok { pipeline_name := cfg.name, status := .failed
              scan_results := [resA] }) := by
  constructor
  · intro hstop
    constructor
    · unfold run_pipeline
      rw [hsteps, hstop]
      simp only [runSteps, hA, hB, hrA, hrB, hstop]
      simp
    · simp [PipelineResult.total_findings, ScanResult.findings_count, hnfA, hfB]
  · intro hstop
    unfold run_pipeline
    rw [hsteps, hstop]
    simp only [runSteps, hA, hrA]
    simp [hfA]

/-- C1 (witness): the amended theorem applied at a concrete two-step
pipeline with stop_on_failure = true. -/
theorem c1_witness :
    run_pipeline c1wScanners c1wCfg =
      .ok { pipeline_name := "w", status := .failed, scan_results := [c1wResA] } :=
  (c1_pipeline_two_steps c1wScanners c1wCfg c1StepA c1StepB
    (fun _ => .ok c1wResA) (fun _ => .ok c1ResB) c1wResA c1ResB
    rfl rfl rfl rfl rfl rfl rfl rfl rfl).2 rfl

/-- If the step loop reports an early stop, stop_on_failure was set and one
of the recorded results is a FAILED one. -/
theorem runSteps_stopped (scanners : ScannerMap) (stop : Bool) :
    ∀ (steps : List ScanConfig) (rs : List ScanResult),
      runSteps scanners stop steps = .ok (rs, true) →
      stop = true ∧ ∃ r ∈ rs, r.status = .failed := by
  intro steps
  induction steps with
  | nil =>
    intro rs h
    simp [runSteps] at h
  | cons step rest ih =>
    intro rs h
    unfold runSteps at h
    split at h
    · -- no scanner registered: SKIPPED result prepended, flag from the tail
      split at h
      · exact absurd h (by simp)
      · rename_i rs' stopped heq
        simp only [Except.ok.injEq, Prod.mk.injEq] at h
        obtain ⟨hrs, hstopped⟩ := h
        obtain ⟨hstop, r, hr, hrst⟩ := ih rs' (by rw [heq, hstopped])
        exact ⟨hstop, r, by rw [← hrs]; exact List.mem_cons_of_mem _ hr, hrst⟩
    · -- scanner ran
      split at h
      · exact absurd h (by simp)
      · rename_i r hrun
        split at h
        · rename_i hcond
          simp only [Except.ok.injEq, Prod.mk.injEq] at h
          obtain ⟨hrs, -⟩ := h
          exact ⟨by simpa using hcond.1, r, by rw [← hrs]; simp, hcond.2⟩
        · split at h
          · exact absurd h (by simp)
          · rename_i rs' stopped heq
            simp only [Except.ok.injEq, Prod.mk.injEq] at h
            obtain ⟨hrs, hstopped⟩ := h
            obtain ⟨hstop, r', hr', hrst'⟩ := ih rs' (by rw [heq, hstopped])
            exact ⟨hstop, r', by rw [← hrs]; exact List.mem_cons_of_mem _ hr', hrst'⟩

/-- C8: a step whose result status is TimedOut never aborts the remaining
steps - the loop proceeds on the tail exactly as if the step had completed,
for any stop_on_failure setting; and whenever a pipeline ends FAILED through
the early return, stop_on_failure was true and a recorded step result is
FAILED (so a TimedOut result never triggers it). -/
theorem c8_timed_out_does_not_stop :
    (∀ (scanners : ScannerMap) (stop : Bool) (step : ScanConfig)
        (rest : List ScanConfig) (runner : Runner) (r : ScanResult),
      scanners step.tool_name = some runner →
      runner step = .ok r →
      r.status = .timed_out →
      runSteps scanners stop (step :: rest) =
        match runSteps scanners stop rest with
        | .error e => .error e
        | .ok (rs, stopped) => .ok (r :: rs, stopped))
    ∧ (∀ (scanners : ScannerMap) (cfg : PipelineConfig) (pres : PipelineResult),
      run_pipeline scanners cfg = .ok pres →
      pres.status = .failed →
      cfg.stop_on_failure = true ∧ ∃ r ∈ pres.scan_results, r.status = .failed) := by
  constructor
  · intro scanners stop step rest runner r hreg hrun hto
    conv_lhs => rw [runSteps]
    simp only [hreg, hrun, hto]
    simp
  · intro scanners cfg pres hrun hfail
    unfold run_pipeline at hrun
    split at hrun
    · exact absurd hrun (by simp)
    · rename_i rs stopped hrec
      simp only [Except.ok.injEq] at hrun
      subst hrun
      cases stopped with
      | false => simp at hfail
      | true =>
        obtain ⟨hstop, r, hr, hrst⟩ :=
          runSteps_stopped scanners cfg.stop_on_failure cfg.steps rs hrec
        exact ⟨hstop, r, hr, hrst⟩

/-- C8 (witness): a concrete two-step loop with stop_on_failure = true whose
first step times out; the second (unregistered, hence SKIPPED) step is still
processed and no early stop happens. -/
theorem c8_witness :
    runSteps (fun n => if n = "ta" then some (fun _ =>
        .ok { tool_name := "ta", config := c1StepA, status := .timed_out }) else none)
      true [c1StepA, c1StepB] =
      .ok ([{ tool_name := "ta", config := c1StepA, status := .timed_out },
            skippedResult c1StepB], false) := by
  have h := c8_timed_out_does_not_stop.1
    (fun n => if n = "ta" then some (fun _ =>
        .ok { tool_name := "ta", config := c1StepA, status := .timed_out }) else none)
    true c1StepA [c1StepB]
    (fun _ => .ok { tool_name := "ta", config := c1StepA, status := .timed_out })
    { tool_name := "ta", config := c1StepA, status := .timed_out }
    rfl rfl rfl
  rw [h]
  rfl

/-- C3 (counterexample): a dry-run invocation of an installed tool spawns no
process and completes with the command in stdout, but the timestamped output
directory IS created - `_create_output_dir` runs at step 2, before the
dry-run check at step 4 - contradicting "returns without touching the
filesystem (no output directory is created for the run)". -/
theorem c3_counterexample :
    (ScannerBase.run "mock"
      { installed := true, createOutputDir := .ok "/out/mock/20250101_000000",
        buildCommand := .ok ["mock.exe", "/scan"],
        execute := .finished 0 "" "", outputFiles := [], parseOutput := .ok [] }
      { tool_name := "mock", dry_run := true }) =
    { result := .ok { tool_name := "mock",
                      config := { tool_name := "mock", dry_run := true },
                      status := .completed,
                      stdout := "[DRY RUN] Would execute: mock.exe /scan" },
      dirCreated := true,
      spawned := false } := by
  rfl

/-- C3 (amended): for every installed tool and dry_run config, provided the
output-directory creation succeeds and build_command returns a command, run
spawns no process and returns a Completed result whose stdout holds the
literal command - but the output directory is created first (and if its
creation fails, the exception escapes, see C4). -/
theorem c3_dry_run (toolName : String) (env : ExecEnv) (cfg : ScanConfig)
    (d : String) (cmd : List String)
    (hI : env.installed = true)
    (hD : env.createOutputDir = .ok d)
    (hB : env.buildCommand = .ok cmd)
    (hdry : cfg.dry_run = true) :
    ScannerBase.run toolName env cfg =
      { result := .ok { tool_name := toolName, config := cfg,
                        status := .completed,
                        stdout := "[DRY RUN] Would execute: "
                          ++ String.intercalate " " cmd },
        dirCreated := true,
        spawned := false } := by
  unfold ScannerBase.run
  simp only [hI, hD, hB, hdry]
  simp

/-- C3 (witness): the amended dry-run theorem at a concrete input. -/
theorem c3_witness :
    ScannerBase.run "w3"
      { installed := true, createOutputDir := .ok "/o",
        buildCommand := .ok ["w3.exe"], execute := .finished 0 "" "",
        outputFiles := [], parseOutput := .ok [] }
      { tool_name := "w3", dry_run := true } =
      { result := .ok { tool_name := "w3",
                        config := { tool_name := "w3", dry_run := true },
                        status := .completed,
                        stdout := "[DRY RUN] Would execute: "
                          ++ String.intercalate " " ["w3.exe"] },
        dirCreated := true,
        spawned := false } :=
  c3_dry_run "w3" _ _ "/o" ["w3.exe"] rfl rfl rfl rfl

/-- C4 (counterexample): an exception raised while creating the output
directory (`output_dir.mkdir`, called outside any try block) escapes
ScannerBase.run and propagates out of run_pipeline, which therefore does not
return a PipelineResult. -/
theorem c4_counterexample :
    run_pipeline
      (fun n => if n = "mock4" then some (fun c =>
        (ScannerBase.run "mock4"
          { installed := true, createOutputDir := .error "PermissionError",
            buildCommand := .ok ["x"], execute := .finished 0 "" "",
            outputFiles := [], parseOutput := .ok [] } c).result) else none)
      { name := "p4", steps := [{ tool_name := "mock4" }] } =
    .error "PermissionError" := by
  rfl

/-- When every registered runner invoked on a step returns a result (no
uncaught exception), the step loop returns a result list. -/
theorem runSteps_total (scanners : ScannerMap) (stop : Bool) :
    ∀ steps : List ScanConfig,
      (∀ step ∈ steps, ∀ f, scanners step.tool_name = some f →
        ∃ r, f step = .ok r) →
      ∃ p, runSteps scanners stop steps = .ok p := by
  intro steps
  induction steps with
  | nil => exact fun _ => ⟨([], false), rfl⟩
  | cons step rest ih =>
    intro hsteps
    obtain ⟨⟨rs, stopped⟩, hpr⟩ :=
      ih (fun s hs => hsteps s (List.mem_cons_of_mem _ hs))
    cases hreg : scanners step.tool_name with
    | none =>
      refine ⟨(skippedResult step :: rs, stopped), ?_⟩
      conv_lhs => rw [runSteps]
      simp only [hreg, hpr]
    | some f =>
      obtain ⟨r, hr⟩ := hsteps step (by simp) f hreg
      by_cases hcond : stop ∧ r.status = ScanStatus.failed
      · refine ⟨([r], true), ?_⟩
        conv_lhs => rw [runSteps]
        simp only [hreg, hr]
        rw [if_pos hcond]
      · refine ⟨(r :: rs, stopped), ?_⟩
        conv_lhs => rw [runSteps]
        simp only [hreg, hr]
        rw [if_neg hcond, hpr]

/-- C4 (amended): every failure inside one scan step except output-directory
creation failure - tool unavailable, command-build exception, spawn/IO
error, timeout, output-parse exception - is contained in that step's
ScanResult: whenever `_create_output_dir` does not raise, run returns a
ScanResult, and a pipeline whose steps all return results returns a
PipelineResult with no exception, its only early exit being the controlled
stop_on_failure return. -/
theorem c4_failures_contained :
    (∀ (toolName : String) (env : ExecEnv) (cfg : ScanConfig) (d : String),
      env.createOutputDir = .ok d →
      ∃ r, (ScannerBase.run toolName env cfg).result = .ok r)
    ∧ (∀ (scanners : ScannerMap) (cfg : PipelineConfig),
      (∀ step ∈ cfg.steps, ∀ f, scanners step.tool_name = some f →
        ∃ r, f step = .ok r) →
      ∃ pres, run_pipeline scanners cfg = .ok pres) := by
  constructor
  · intro toolName env cfg d hD
    unfold ScannerBase.run
    cases hI : env.installed
    · exact ⟨_, rfl⟩
    · rw [hD]
      cases hB : env.buildCommand with
      | error e => exact ⟨_, rfl⟩
      | ok cmd =>
        cases hdry : cfg.dry_run
        · cases hE : env.execute with
          | timeout => exact ⟨_, rfl⟩
          | spawnError e => exact ⟨_, rfl⟩
          | finished rc out err =>
            by_cases hc : rc = 0 ∨ env.isSuccessReturnCode (some rc) = true
            · simp only [if_pos hc]
              exact ⟨_, rfl⟩
            · simp only [if_neg hc]
              exact ⟨_, rfl⟩
        · exact ⟨_, rfl⟩
  · intro scanners cfg hsteps
    obtain ⟨⟨rs, stopped⟩, hpr⟩ :=
      runSteps_total scanners cfg.stop_on_failure cfg.steps hsteps
    refine ⟨{ pipeline_name := cfg.name,
              status := if stopped then .failed else .completed,
              scan_results := rs }, ?_⟩
    unfold run_pipeline
    rw [hpr]

/-- C4 (witness): the containment theorem at concrete inputs - a failing
build_command is contained in a FAILED result, and a pipeline over an empty
step list returns a PipelineResult. -/
theorem c4_witness :
    (∃ r, (ScannerBase.run "w4"
      { installed := true, createOutputDir := .ok "/o4",
        buildCommand := .error "boom", execute := .finished 0 "" "",
        outputFiles := [], parseOutput := .ok [] }
      { tool_name := "w4" }).result = .ok r)
    ∧ (∃ pres, run_pipeline (fun _ => none) { name := "w", steps := [] } = .ok pres) :=
  ⟨c4_failures_contained.1 "w4" _ { tool_name := "w4" } "/o4" rfl,
   c4_failures_contained.2 (fun _ => none) { name := "w", steps := [] }
     (fun step hstep => absurd hstep (List.not_mem_nil step))⟩

/-- C6: when the tool is installed, directory creation and command build
succeed, the run is not a dry run and the subprocess finishes within the
timeout, a parse_output exception is swallowed: run still returns a result
with an empty findings list, status Completed exactly when the return code
is 0 or accepted by the scanner's success predicate (else Failed), and the
captured stdout/stderr preserved. -/
theorem c6_parse_error_degrades (toolName : String) (env : ExecEnv)
    (cfg : ScanConfig) (d : String) (cmd : List String) (rc : Int)
    (out err pe : String)
    (hI : env.installed = true)
    (hD : env.createOutputDir = .ok d)
    (hB : env.buildCommand = .ok cmd)
    (hdry : cfg.dry_run = false)
    (hE : env.execute = .finished rc out err)
    (hP : env.parseOutput = .error pe) :
    (ScannerBase.run toolName env cfg).result =
      .ok { tool_name := toolName, config := cfg,
            status := if rc = 0 ∨ env.isSuccessReturnCode (some rc) = true
                      then .completed else .failed,
            return_code := some rc, stdout := out, stderr := err,
            output_files := env.outputFiles,
            findings := [],
            error_message :=
              if rc = 0 ∨ env.isSuccessReturnCode (some rc) = true then none
              else some (toolName ++ " exited with code " ++ toString rc) } := by
  unfold ScannerBase.run
  simp only [hI, hD, hB, hdry, hE, hP]
  by_cases hc : rc = 0 ∨ env.isSuccessReturnCode (some rc) = true
  · simp [hc]
  · simp [hc]

/-- C6 (witness): the parse-degradation theorem at a concrete input with a
non-zero exit code. -/
theorem c6_witness :
    (ScannerBase.run "w6"
      { installed := true, createOutputDir := .ok "/o6",
        buildCommand := .ok ["w6.exe"], execute := .finished 2 "so" "se",
        outputFiles := ["/o6/r.json"], parseOutput := .error "ValueError" }
      { tool_name := "w6" }).result =
      .ok { tool_name := "w6", config := { tool_name := "w6" },
            status := if (2 : Int) = 0 ∨ (false : Bool) = true
                      then .completed else .failed,
            return_code := some 2, stdout := "so", stderr := "se",
            output_files := ["/o6/r.json"],
            findings := [],
            error_message :=
              if (2 : Int) = 0 ∨ (false : Bool) = true then none
              else some ("w6" ++ " exited with code " ++ toString (2 : Int)) } :=
  c6_parse_error_degrades "w6" _ _ "/o6" ["w6.exe"] 2 "so" "se" "ValueError"
    rfl rfl rfl rfl rfl rfl

/-- Any path the check_tool search returns is an existing file, provided the
PATH oracle only reports existing files (as `shutil.which` does). -/
theorem findToolPath_isFile (fs : FS) (td n : String) (tool : ToolInfo)
    (p : String)
    (hwhich : ∀ e q, fs.which e = some q → fs.isFile q = true)
    (h : findToolPath fs td n tool = some p) : fs.isFile p = true := by
  have rest :
      (let tool_dir := td ++ "/" ++ n
       let step2 : Option String :=
         if fs.isDir tool_dir then
           let candidate := tool_dir ++ "/" ++ tool.exe_name
           if fs.isFile candidate then some candidate
           else (fs.rglob tool_dir tool.exe_name).find? (fun c => fs.isFile c)
         else none
       match step2 with
       | some q => some q
       | none =>
         let candidate_flat := td ++ "/" ++ tool.exe_name
         if fs.isFile candidate_flat then some candidate_flat
         else fs.which tool.exe_name) = some p →
      fs.isFile p = true := by
    intro h2
    simp only [] at h2
    by_cases hdir : fs.isDir (td ++ "/" ++ n) = true
    · simp only [hdir, if_true] at h2
      by_cases hc : fs.isFile (td ++ "/" ++ n ++ "/" ++ tool.exe_name) = true
      · simp only [hc, if_true] at h2
        cases h2
        exact hc
      · simp only [hc, if_false] at h2
        cases hfind : (fs.rglob (td ++ "/" ++ n) tool.exe_name).find?
            (fun c => fs.isFile c) with
        | some q =>
          rw [hfind] at h2
          cases h2
          exact List.find?_some hfind
        | none =>
          rw [hfind] at h2
          by_cases hflat : fs.isFile (td ++ "/" ++ tool.exe_name) = true
          · simp only [hflat, if_true] at h2
            cases h2
            exact hflat
          · simp only [hflat, if_false] at h2
            exact hwhich _ _ h2
    · simp only [Bool.not_eq_true] at hdir
      simp only [hdir, Bool.false_eq_true, if_false] at h2
      by_cases hflat : fs.isFile (td ++ "/" ++ tool.exe_name) = true
      · simp only [hflat, if_true] at h2
        cases h2
        exact hflat
      · simp only [hflat, if_false] at h2
        exact hwhich _ _ h2
  unfold findToolPath at h
  cases hpath : tool.path with
  | none =>
    rw [hpath] at h
    exact rest h
  | some p0 =>
    rw [hpath] at h
    by_cases hf0 : fs.isFile p0 = true
    · simp only [hf0, if_true] at h
      cases h
      exact hf0
    · simp only [hf0, if_false] at h
      exact rest h

/-- If the search missed with the stored path field set, it still misses
after that field is cleared (steps 2 and 3 only read exe_name). -/
theorem findToolPath_path_none (fs : FS) (td n : String) (tool : ToolInfo)
    (h : findToolPath fs td n tool = none) :
    findToolPath fs td n { tool with path := none, installed := false } = none := by
  unfold findToolPath at h ⊢
  cases hpath : tool.path with
  | none =>
    rw [hpath] at h
    exact h
  | some p0 =>
    rw [hpath] at h
    by_cases hf0 : fs.isFile p0 = true
    · simp only [hf0, if_true] at h
      exact absurd h (by simp)
    · simp only [hf0, if_false] at h
      exact h

/-- The check_tool search reads only the `path` and `exe_name` fields of the
registry entry. -/
theorem findToolPath_congr (fs : FS) (td n : String) (t t' : ToolInfo)
    (hp : t'.path = t.path) (he : t'.exe_name = t.exe_name) :
    findToolPath fs td n t' = findToolPath fs td n t := by
  unfold findToolPath
  rw [hp, he]

/-- Updating a registry entry makes it the stored entry for that name. -/
theorem setTool_get (s : TMState) (n : String) (t : ToolInfo) :
    (setTool s n t).tools n = some t := by
  simp [setTool]

/-- Storing the same entry twice equals storing it once. -/
theorem setTool_idem (s : TMState) (n : String) (t : ToolInfo) :
    setTool (setTool s n t) n t = setTool s n t := by
  unfold setTool
  congr 1
  funext m
  by_cases hm : m = n <;> simp [hm]

/-- C2 (amended): check_tool resolves relative to the ToolInfo's CURRENT
`path` field - the config override at registry construction, or whatever a
previous check_tool call cached there - following the spec's priority
(existing stored path, then toolsDir/<name>/ direct or nested, then flat
toolsDir, then PATH); under a fixed filesystem the resolution is idempotent:
repeating a call returns the same ToolInfo and leaves the state unchanged.
(It is NOT side-effect-free: the resolved path is cached into the stored
entry, so a higher-priority location appearing later is shadowed while the
cached file exists - see the counterexample.) -/
theorem c2_resolution_follows_stored_path :
    (∀ (fs : FS) (td n : String) (tool : ToolInfo),
      (fs.isDir (td ++ "/" ++ n) = false →
        fs.isFile (td ++ "/" ++ n ++ "/" ++ tool.exe_name) = false
        ∧ fs.rglob (td ++ "/" ++ n) tool.exe_name = []) →
      findToolPath fs td n tool = priorityResolve fs tool.path td n tool.exe_name)
    ∧ (∀ (fs : FS) (s : TMState) (n : String) (t : ToolInfo) (s' : TMState),
      (∀ e q, fs.which e = some q → fs.isFile q = true) →
      check_tool fs s n = .ok (t, s') →
      check_tool fs s' n = .ok (t, s')) := by
  constructor
  · intro fs td n tool hco
    unfold findToolPath priorityResolve
    by_cases hdir : fs.isDir (td ++ "/" ++ n) = true
    · simp only [hdir, if_true]
    · simp only [Bool.not_eq_true] at hdir
      obtain ⟨h1, h2⟩ := hco hdir
      simp only [hdir, Bool.false_eq_true, if_false, h1, h2, List.find?_nil]
  · intro fs s n t s' hwhich h
    unfold check_tool at h ⊢
    cases hreg : s.tools n with
    | none =>
      simp [hreg] at h
    | some tool =>
      simp only [hreg] at h
      cases hfind : findToolPath fs s.tools_dir n tool with
      | some p =>
        simp only [hfind] at h
        simp only [Except.ok.injEq, Prod.mk.injEq] at h
        obtain ⟨ht, hs'⟩ := h
        have hs'n : s'.tools n = some t := by
          rw [← hs', ← ht]
          exact setTool_get s n _
        simp only [hs'n]
        have hfile : fs.isFile p = true :=
          findToolPath_isFile fs s.tools_dir n tool p hwhich hfind
        have htd : s'.tools_dir = s.tools_dir := by
          rw [← hs']
          rfl
        have hfind' : findToolPath fs s'.tools_dir n t = some p := by
          rw [htd, ← ht]
          unfold findToolPath
          simp only [hfile, if_true]
        simp only [hfind']
        have ht2 : { t with path := some p, installed := true } = t := by
          rw [← ht]
        rw [ht2]
        have hset : setTool s' n t = s' := by
          rw [← hs', ← ht]
          exact setTool_idem s n _
        rw [hset]
      | none =>
        simp only [hfind] at h
        simp only [Except.ok.injEq, Prod.mk.injEq] at h
        obtain ⟨ht, hs'⟩ := h
        have hs'n : s'.tools n = some t := by
          rw [← hs', ← ht]
          exact setTool_get s n _
        simp only [hs'n]
        have htd : s'.tools_dir = s.tools_dir := by
          rw [← hs']
          rfl
        have hfind' : findToolPath fs s'.tools_dir n t = none := by
          rw [htd, ← ht]
          exact findToolPath_path_none fs s.tools_dir n tool hfind
        simp only [hfind']
        have ht2 : { t with path := none, installed := false } = t := by
          rw [← ht]
        rw [ht2]
        have hset : setTool s' n t = s' := by
          rw [← hs', ← ht]
          exact setTool_idem s n _
        rw [hset]

/-- C2 (counterexample): check_tool is not side-effect-free and does not
re-resolve purely from (config, filesystem): the first call (no config path,
binary only on PATH) caches the PATH location into the stored ToolInfo; when
a higher-priority toolsDir copy appears later, the second call still returns
the cached PATH location - the spec priority at call time would pick the
toolsDir copy. -/
theorem c2_counterexample :
    check_tool c2fs1 c2s0 "yara_x" = .ok (c2t1, c2s1)
    ∧ c2fs2.isDir "/tools/yara_x" = true
    ∧ c2fs2.isFile "/tools/yara_x/yr.exe" = true
    ∧ priorityResolve c2fs2 none "/tools" "yara_x" "yr.exe"
        = some "/tools/yara_x/yr.exe"
    ∧ (match check_tool c2fs2 c2s1 "yara_x" with
       | .ok (t, _) => t.path
       | .error _ => none) = some "/usr/bin/yr.exe"
    ∧ some "/usr/bin/yr.exe" ≠ some "/tools/yara_x/yr.exe" := by
  refine ⟨rfl, rfl, rfl, rfl, rfl, ?_⟩
  decide

/-- C2 (witness): the amended theorem at the concrete first-call state:
repeating the call under the unchanged filesystem returns the same ToolInfo
and the same state. -/
theorem c2_witness :
    check_tool c2fs1 c2s1 "yara_x" = .ok (c2t1, c2s1) := by
  have hwhich : ∀ e q, c2fs1.which e = some q → c2fs1.isFile q = true := by
    intro e q h
    simp only [c2fs1] at h ⊢
    by_cases he : (e == "yr.exe") = true
    · rw [if_pos he] at h
      cases h
      rfl
    · rw [if_neg he] at h
      exact absurd h (by simp)
  exact c2_resolution_follows_stored_path.2 c2fs1 c2s0 "yara_x" c2t1 c2s1 hwhich rfl

/-- C7: a tool name absent from the registry makes both check_tool and
get_tool_path raise the distinguishable unknown-tool condition (KeyError);
a registered tool that resolves nowhere makes check_tool return
installed=false with no path - without raising - while get_tool_path raises
the tool-not-found error whose message carries the two remediation hints
(run setup, or set security.tools.<name>.path). -/
theorem c7_unknown_vs_absent :
    (∀ (fs : FS) (s : TMState) (n : String),
      s.tools n = none →
      check_tool fs s n = .error (.unknownTool ("Unknown tool: " ++ n))
      ∧ get_tool_path fs s n = .error (.unknownTool ("Unknown tool: " ++ n)))
    ∧ (∀ (fs : FS) (s : TMState) (n : String) (tool : ToolInfo),
      s.tools n = some tool →
      findToolPath fs s.tools_dir n tool = none →
      check_tool fs s n =
        .ok ({ tool with path := none, installed := false },
             setTool s n { tool with path := none, installed := false })
      ∧ ∃ pre, get_tool_path fs s n = .error (.toolNotFound (pre ++
          ("not found. Run python main.py security setup to install, or set security.tools."
            ++ n ++ ".path in config.yaml.")))) := by
  constructor
  · intro fs s n hreg
    have h1 : check_tool fs s n = .error (.unknownTool ("Unknown tool: " ++ n)) := by
      unfold check_tool
      simp only [hreg]
    refine ⟨h1, ?_⟩
    unfold get_tool_path
    simp only [h1]
  · intro fs s n tool hreg hfind
    have h1 : check_tool fs s n =
        .ok ({ tool with path := none, installed := false },
             setTool s n { tool with path := none, installed := false }) := by
      unfold check_tool
      simp only [hreg, hfind]
    refine ⟨h1, tool.display_name ++ " (" ++ tool.exe_name ++ ") ", ?_⟩
    unfold get_tool_path
    simp only [h1]
    rfl

/-- C7 (witness): the theorem at a concrete registry - an unregistered name
raises unknown-tool from both entry points, and the registered-but-absent
tool yields installed=false / a not-found error. -/
theorem c7_witness :
    (check_tool c9fs c9s "nope" =
      .error (.unknownTool ("Unknown tool: " ++ "nope")))
    ∧ (check_tool c9fs c9s "hh" =
      .ok ({ name := "hh", display_name := "HH", exe_name := "hh.exe",
             path := none, installed := false },
           setTool c9s "hh"
             { name := "hh", display_name := "HH", exe_name := "hh.exe",
               path := none, installed := false })) :=
  ⟨(c7_unknown_vs_absent.1 c9fs c9s "nope" rfl).1,
   (c7_unknown_vs_absent.2 c9fs c9s "hh"
     { name := "hh", display_name := "HH", exe_name := "hh.exe" } rfl rfl).1⟩

/-- C9: for every registered tool, verify_tool_integrity never raises, and
returns false when the tool resolves nowhere, true when it resolves and no
hash is pinned, true when the computed digest equals the lowercased pinned
hash, and false on a mismatch. -/
theorem c9_verify_integrity :
    ∀ (fs : FS) (s : TMState) (n : String) (tool : ToolInfo),
      s.tools n = some tool →
      (∃ b s', verify_tool_integrity fs s n = .ok (b, s'))
      ∧ (findToolPath fs s.tools_dir n tool = none →
          ∃ s', verify_tool_integrity fs s n = .ok (false, s'))
      ∧ (∀ p, findToolPath fs s.tools_dir n tool = some p →
          tool.expected_hash = none →
          ∃ s', verify_tool_integrity fs s n = .ok (true, s'))
      ∧ (∀ p h, findToolPath fs s.tools_dir n tool = some p →
          tool.expected_hash = some h →
          fs.sha256 p = strLower h →
          ∃ s', verify_tool_integrity fs s n = .ok (true, s'))
      ∧ (∀ p h, findToolPath fs s.tools_dir n tool = some p →
          tool.expected_hash = some h →
          fs.sha256 p ≠ strLower h →
          ∃ s', verify_tool_integrity fs s n = .ok (false, s')) := by
  intro fs s n tool hreg
  have hnone : findToolPath fs s.tools_dir n tool = none →
      verify_tool_integrity fs s n =
        .ok (false, setTool s n { tool with path := none, installed := false }) := by
    intro hfind
    unfold verify_tool_integrity check_tool
    simp only [hreg, hfind]
  have hsome : ∀ p, findToolPath fs s.tools_dir n tool = some p →
      verify_tool_integrity fs s n =
        .ok ((match tool.expected_hash with
              | none => true
              | some h => decide (fs.sha256 p = strLower h)),
             setTool s n { tool with path := some p, installed := true }) := by
    intro p hfind
    unfold verify_tool_integrity check_tool
    simp only [hreg, hfind]
    cases tool.expected_hash <;> rfl
  refine ⟨?_, ?_, ?_, ?_, ?_⟩
  · cases hfind : findToolPath fs s.tools_dir n tool with
    | none => exact ⟨false, _, hnone hfind⟩
    | some p => exact ⟨_, _, hsome p hfind⟩
  · intro hfind
    exact ⟨_, hnone hfind⟩
  · intro p hfind he
    have h := hsome p hfind
    simp only [he] at h
    exact ⟨_, h⟩
  · intro p h hfind he heq
    have hv := hsome p hfind
    simp only [he] at hv
    rw [heq] at hv
    simp at hv
    exact ⟨_, hv⟩
  · intro p h hfind he hne
    have hv := hsome p hfind
    simp only [he] at hv
    simp [hne] at hv
    exact ⟨_, hv⟩

/-- C9 (witness): the integrity theorem at a concrete registered tool that
resolves nowhere - verification returns false without raising. -/
theorem c9_witness :
    ∃ s', verify_tool_integrity c9fs c9s "hh" = .ok (false, s') :=
  (c9_verify_integrity c9fs c9s "hh"
    { name := "hh", display_name := "HH", exe_name := "hh.exe" } rfl).2.1 rfl

/-- C10: for every installed tool with a pinned expected_hash, verification
compares the computed digest against the lowercased pin: it returns true
exactly when the pin's lowercase form equals the digest, and any two pins
with the same lowercase form (e.g. an uppercase pin and its lowercase form)
verify identically - the check is case-insensitive in the configured
hash. -/
theorem c10_hash_case_insensitive :
    ∀ (fs : FS) (s : TMState) (n : String) (tool : ToolInfo) (p H : String),
      s.tools n = some tool →
      findToolPath fs s.tools_dir n tool = some p →
      tool.expected_hash = some H →
      (∃ s', verify_tool_integrity fs s n =
          .ok (decide (fs.sha256 p = strLower H), s')
        ∧ (verify_tool_integrity fs s n = .ok (true, s')
            ↔ fs.sha256 p = strLower H))
      ∧ (∀ (H' : String) (tool' : ToolInfo) (s₂ : TMState),
          strLower H' = strLower H →
          s₂.tools_dir = s.tools_dir →
          s₂.tools n = some tool' →
          tool'.path = tool.path →
          tool'.exe_name = tool.exe_name →
          tool'.expected_hash = some H' →
          ∃ s', verify_tool_integrity fs s₂ n =
            .ok (decide (fs.sha256 p = strLower H), s')) := by
  intro fs s n tool p H hreg hfind hhash
  have hv : verify_tool_integrity fs s n =
      .ok (decide (fs.sha256 p = strLower H),
           setTool s n { tool with path := some p, installed := true }) := by
    unfold verify_tool_integrity check_tool
    simp only [hreg, hfind, hhash]
  constructor
  · refine ⟨_, hv, ?_⟩
    rw [hv]
    simp
  · intro H' tool' s₂ hH htd hreg2 hp he hhash2
    have hfind2 : findToolPath fs s₂.tools_dir n tool' = some p := by
      rw [htd, findToolPath_congr fs s.tools_dir n tool tool' hp he]
      exact hfind
    have hv2 : verify_tool_integrity fs s₂ n =
        .ok (decide (fs.sha256 p = strLower H'),
             setTool s₂ n { tool' with path := some p, installed := true }) := by
      unfold verify_tool_integrity check_tool
      simp only [hreg2, hfind2, hhash2]
    rw [hH] at hv2
    exact ⟨_, hv2⟩

/-- C10 (witness): an UPPERCASE pinned hash verifies true because its
lowercase form equals the computed digest. -/
theorem c10_witness :
    ∃ s', verify_tool_integrity c10fs c10s "x" = .ok (true, s') := by
  obtain ⟨s', hv, -⟩ :=
    (c10_hash_case_insensitive c10fs c10s "x" c10tool "/bin/x.exe" "ABC1"
      rfl rfl rfl).1
  have hd : decide (c10fs.sha256 "/bin/x.exe" = strLower "ABC1") = true := by
    decide
  rw [hd] at hv
  exact ⟨s', hv⟩

/-- _raw_to_findings emits exactly one Finding per non-zero counter among
the seven anomaly counters. -/
theorem raw_to_findings_length (raw : RawProc) :
    (raw_to_findings raw).length =
      [raw.replaced, raw.implanted, raw.hdr_modified, raw.patched,
       raw.iat_hooked, raw.unreachable_file, raw.other].countP
        (fun c => decide (0 < c)) := by
  unfold raw_to_findings ANOMALY_SEVERITY
  rw [List.length_map, ← List.countP_eq_length_filter]
  simp only [List.countP_cons, List.countP_nil, RawProc.counter]

/-- C5 (counterexample): a per-process subdirectory report whose only
non-zero anomaly counter is iat_hooked yields NO finding - the subdirectory
branch of parse_hollows_hunter_report reads only
replaced/implanted/hdr_modified/patched, so its four-counter gate drops the
report - refuting "exactly one Finding per non-zero anomaly counter" for
per-process reports. -/
theorem c5_counterexample :
    ¬ ((hollows_hunter_findings
        { topScanned := none,
          subReports := [("4242", some { iat_hooked := 1 })] }).length =
      [(0 : Nat), 0, 0, 0, 1, 0, 0].countP (fun c => decide (0 < c))) := by
  decide

/-- C5 (amended): _raw_to_findings emits one Finding per non-zero counter of
the seven, never a single aggregated finding per process; through the
top-level `scanned` report all seven counters are surfaced, so a process
entry yields one finding per non-zero counter; through a per-process
subdirectory report only replaced/implanted/hdr_modified/patched are read,
so such a report yields one finding per non-zero counter among those four;
and the concrete report replaced=2, implanted=1, all others 0, yields exactly
2 findings with severities [critical, critical] and MITRE ids
[T1055.012, T1055]. -/
theorem c5_one_finding_per_counter :
    (∀ raw : RawProc,
      (raw_to_findings raw).length =
        [raw.replaced, raw.implanted, raw.hdr_modified, raw.patched,
         raw.iat_hooked, raw.unreachable_file, raw.other].countP
          (fun c => decide (0 < c)))
    ∧ (∀ (pid : String) (p : ProcInfo),
      (hollows_hunter_findings
        { topScanned := some [(pid, p)], subReports := [] }).length =
        [p.replaced, p.implanted, p.hdr_modified, p.patched,
         p.iat_hooked, p.unreachable_file, p.other].countP
          (fun c => decide (0 < c)))
    ∧ (∀ (pidDir : String) (d : PerProcReport),
      (hollows_hunter_findings
        { topScanned := none, subReports := [(pidDir, some d)] }).length =
        [d.replaced, d.implanted, d.hdr_modified, d.patched].countP
          (fun c => decide (0 < c)))
    ∧ (∀ (pid pname : String),
      ((raw_to_findings
          { pid := pid, name := pname, replaced := 2, implanted := 1 }).map
          Finding.severity = [.critical, .critical])
      ∧ ((raw_to_findings
          { pid := pid, name := pname, replaced := 2, implanted := 1 }).map
          Finding.mitre_attack = [some "T1055.012", some "T1055"])) := by
  refine ⟨raw_to_findings_length, ?_, ?_, ?_⟩
  · intro pid p
    unfold hollows_hunter_findings parse_hollows_hunter_report
    by_cases ht : topTotalSuspicious p > 0
    · simp only [topEntryToRaw, List.filterMap_cons, List.filterMap_nil,
        List.append_nil, List.nil_append]
      rw [if_pos ht]
      simp [raw_to_findings_length]
    · have h0 : p.replaced = 0 ∧ p.implanted = 0 ∧ p.hdr_modified = 0
          ∧ p.patched = 0 ∧ p.iat_hooked = 0 ∧ p.unreachable_file = 0
          ∧ p.other = 0 := by
        unfold topTotalSuspicious at ht
        omega
      obtain ⟨h1, h2, h3, h4, h5, h6, h7⟩ := h0
      simp [topEntryToRaw, ht, h1, h2, h3, h4, h5, h6, h7]
  · intro pidDir d
    unfold hollows_hunter_findings parse_hollows_hunter_report
    by_cases ht : subTotalSuspicious d > 0
    · simp only [subEntryToRaw, List.filterMap_cons, List.filterMap_nil,
        List.append_nil, List.nil_append]
      rw [if_pos ht]
      simp [raw_to_findings_length, List.countP_cons]
    · have h0 : d.replaced = 0 ∧ d.implanted = 0 ∧ d.hdr_modified = 0
          ∧ d.patched = 0 := by
        unfold subTotalSuspicious at ht
        omega
      obtain ⟨h1, h2, h3, h4⟩ := h0
      simp [subEntryToRaw, ht, h1, h2, h3, h4]
  · intro pid pname
    exact ⟨rfl, rfl⟩
